import Mathlib

/-!
Verification of the execution pipeline of the python sandbox API
(`src/main.py`): dependency extraction, dependency provisioning, code
wrapping, isolated execution and the HTTP request handler.

The embedding is shallow: each Python function of the source becomes a
Lean definition; the behaviour of external processes (the Python child,
`pip`, the host file system) is passed in as explicit outcome values, so
that each source-level control path is a constructor case.
-/

namespace PySandbox

/-! ### Characters used in generated text

Named characters, so that quotes, braces and backslashes never appear as
character literals in the development. -/

/-- The double-quote character. -/
def qD : Char := Char.ofNat 34

/-- The single-quote character. -/
def qS : Char := Char.ofNat 39

/-- The backslash character. -/
def bslash : Char := Char.ofNat 92

/-- The opening curly brace. -/
def braceL : Char := Char.ofNat 123

/-- The closing curly brace. -/
def braceR : Char := Char.ofNat 125

/-! ### JSON values

`payload.args` is a list of JSON-representable values (`args: List` in
`CodeRequest`, filled from the request body). Numbers are modelled by
integers; this is the fragment exercised by the claims. -/

/-- A JSON-representable value, as carried by `CodeRequest.args`. -/
inductive JValue where
  | null : JValue
  | bool (b : Bool) : JValue
  | num (n : Int) : JValue
  | str (s : String) : JValue
  | arr (xs : List JValue) : JValue
  | obj (fields : List (String × JValue)) : JValue

/-- Lower-case hexadecimal digit for `n < 16`. -/
def hexDigitChar (n : Nat) : Char :=
  if n < 10 then Char.ofNat (48 + n) else Char.ofNat (87 + n % 16)

/-- Four lower-case hex digits, big endian, as emitted by `json.dumps`
in a `\uXXXX` escape. -/
def toHex4 (n : Nat) : List Char :=
  [hexDigitChar (n / 4096 % 16), hexDigitChar (n / 256 % 16),
   hexDigitChar (n / 16 % 16), hexDigitChar (n % 16)]

/-- How CPython's `json.dumps` (defaults: `ensure_ascii=True`) escapes one
character of a string. Characters above the basic multilingual plane are
emitted as a UTF-16 surrogate pair of `\uXXXX` escapes. -/
def jsonEscChar (c : Char) : List Char :=
  if c = qD then [bslash, qD]
  else if c = bslash then [bslash, bslash]
  else if c = Char.ofNat 10 then [bslash, 'n']
  else if c = Char.ofNat 13 then [bslash, 'r']
  else if c = Char.ofNat 9 then [bslash, 't']
  else if c = Char.ofNat 8 then [bslash, 'b']
  else if c = Char.ofNat 12 then [bslash, 'f']
  else if c.toNat < 32 then bslash :: 'u' :: toHex4 c.toNat
  else if c.toNat < 127 then [c]
  else if c.toNat < 65536 then bslash :: 'u' :: toHex4 c.toNat
  else
    let v := c.toNat - 65536
    (bslash :: 'u' :: toHex4 (55296 + v / 1024)) ++
      (bslash :: 'u' :: toHex4 (56320 + v % 1024))

/-- `json.dumps` of a string: double quotes around the escaped characters. -/
def jsonQuote (s : String) : String :=
  ⟨qD :: (s.data.flatMap jsonEscChar) ++ [qD]⟩

mutual

/-- CPython's `json.dumps` with default options, as used in `run_code`
(`src/main.py` line 185) to serialize `payload.args` into the footer.
Defaults: separators `", "` and `": "`, `ensure_ascii=True`. Note that
Python's `True`, `False` and `None` serialize to `true`, `false` and
`null`. -/
def jsonDumps : JValue → String
  | .null => "null"
  | .bool true => "true"
  | .bool false => "false"
  | .num n => toString n
  | .str s => jsonQuote s
  | .arr xs => "[" ++ jsonDumpsElems xs ++ "]"
  | .obj fs => "\x7b" ++ jsonDumpsFields fs ++ "\x7d"

/-- Comma-separated serialization of array elements. -/
def jsonDumpsElems : List JValue → String
  | [] => ""
  | [x] => jsonDumps x
  | x :: y :: xs => jsonDumps x ++ ", " ++ jsonDumpsElems (y :: xs)

/-- Comma-separated serialization of object fields. -/
def jsonDumpsFields : List (String × JValue) → String
  | [] => ""
  | [(k, v)] => jsonQuote k ++ ": " ++ jsonDumps v
  | (k, v) :: f :: fs =>
      jsonQuote k ++ ": " ++ jsonDumps v ++ ", " ++ jsonDumpsFields (f :: fs)

end

/-! ### Evaluation of the footer's argument literal by the Python runtime

The wrapper's footer is executed by CPython; the expression to the right of
`args =` is evaluated under Python's expression grammar. The following is a
model of CPython's evaluation of such a literal expression in an
environment with no local bindings: display literals (`[...]` lists,
`{...}` dicts with string keys), string literals with the standard
escapes, integer literals, and the keywords `True`, `False`, `None`.
Any other name is unbound and raises `NameError`, modelled as `none`.
`\uXXXX` escapes denoting lone UTF-16 surrogates are outside the model
(they build Python strings with no counterpart in a Unicode string type)
and also evaluate to `none`. -/

/-- Python source whitespace between expression tokens. -/
def isPyTokenWS (c : Char) : Bool :=
  c = ' ' ∨ c = Char.ofNat 9 ∨ c = Char.ofNat 10 ∨ c = Char.ofNat 13

/-- Skip whitespace between tokens. -/
def skipws (cs : List Char) : List Char := cs.dropWhile isPyTokenWS

/-- Value of one hexadecimal digit. -/
def hexVal (c : Char) : Option Nat :=
  if c.isDigit then some (c.toNat - 48)
  else if 'a' ≤ c ∧ c ≤ 'f' then some (c.toNat - 87)
  else if 'A' ≤ c ∧ c ≤ 'F' then some (c.toNat - 55)
  else none

/-- Read exactly four hexadecimal digits. -/
def readHex4 : List Char → Option (Nat × List Char)
  | a :: b :: c :: d :: rest =>
    match hexVal a, hexVal b, hexVal c, hexVal d with
    | some va, some vb, some vc, some vd =>
        some (va * 4096 + vb * 256 + vc * 16 + vd, rest)
    | _, _, _, _ => none
  | _ => none

/-- Read a Python string literal body up to the closing quote `q`,
decoding the escapes `\n \t \r \b \f \a \v`, escaped quotes and
backslashes, and `\xHH` / `\uXXXX` escapes. Escapes outside the model
(octal, `\N`, `\U`, lone surrogates) give `none`. -/
def pyReadStr (q : Char) : Nat → List Char → Option (List Char × List Char)
  | 0, _ => none
  | _, [] => none
  | fuel + 1, c :: rest =>
    if c = q then some ([], rest)
    else if c = bslash then
      match rest with
      | [] => none
      | e :: rest2 =>
        let cont (decoded : Char) (after : List Char) :
            Option (List Char × List Char) :=
          match pyReadStr q fuel after with
          | some (s, r) => some (decoded :: s, r)
          | none => none
        if e = 'n' then cont (Char.ofNat 10) rest2
        else if e = 't' then cont (Char.ofNat 9) rest2
        else if e = 'r' then cont (Char.ofNat 13) rest2
        else if e = 'b' then cont (Char.ofNat 8) rest2
        else if e = 'f' then cont (Char.ofNat 12) rest2
        else if e = 'a' then cont (Char.ofNat 7) rest2
        else if e = 'v' then cont (Char.ofNat 11) rest2
        else if e = bslash then cont bslash rest2
        else if e = qS then cont qS rest2
        else if e = qD then cont qD rest2
        else if e = 'x' then
          match rest2 with
          | a :: b :: rest3 =>
            match hexVal a, hexVal b with
            | some va, some vb => cont (Char.ofNat (va * 16 + vb)) rest3
            | _, _ => none
          | _ => none
        else if e = 'u' then
          match readHex4 rest2 with
          | some (v, rest3) =>
            if Nat.isValidChar v then cont (Char.ofNat v) rest3
            else none
          | none => none
        else none
    else
      match pyReadStr q fuel rest with
      | some (s, r) => some (c :: s, r)
      | none => none

/-- Read a decimal natural number (at least one digit). -/
def pyReadNat (cs : List Char) : Option (Nat × List Char) :=
  let ds := cs.takeWhile Char.isDigit
  if ds.isEmpty then none
  else some (ds.foldl (fun a c => a * 10 + (c.toNat - 48)) 0, cs.drop ds.length)

/-- A character that can start a Python identifier. -/
def isIdentStart (c : Char) : Bool := c.isAlpha ∨ c = '_'

/-- A character that can continue a Python identifier. -/
def isIdentChar (c : Char) : Bool := c.isAlphanum ∨ c = '_'

mutual

/-- Parse-and-evaluate one Python expression starting at `cs`, returning
the value and the unconsumed remainder. The environment has no bindings,
so an identifier other than the keywords `True`, `False`, `None` is a
`NameError` (`none`). -/
def pyParseVal (fuel : Nat) (cs : List Char) : Option (JValue × List Char) :=
  match fuel with
  | 0 => none
  | f + 1 =>
    match skipws cs with
    | [] => none
    | c :: rest =>
      if c = '[' then
        match pyParseElems f rest ']' with
        | some (xs, r) => some (.arr xs, r)
        | none => none
      else if c = braceL then
        match pyParseFields f rest with
        | some (fs, r) => some (.obj fs, r)
        | none => none
      else if c = qD ∨ c = qS then
        match pyReadStr c (rest.length + 1) rest with
        | some (s, r) => some (.str ⟨s⟩, r)
        | none => none
      else if c = '-' then
        match pyReadNat (skipws rest) with
        | some (n, r) => some (.num (-(n : Int)), r)
        | none => none
      else if c.isDigit then
        match pyReadNat (c :: rest) with
        | some (n, r) => some (.num (n : Int), r)
        | none => none
      else if isIdentStart c then
        let name : List Char := (c :: rest).takeWhile isIdentChar
        let r := (c :: rest).drop name.length
        if name = "True".data then some (.bool true, r)
        else if name = "False".data then some (.bool false, r)
        else if name = "None".data then some (.null, r)
        else none
      else none

/-- Parse-and-evaluate the comma-separated elements of a display literal
up to the closing bracket `close` (trailing comma allowed, as in Python). -/
def pyParseElems (fuel : Nat) (cs : List Char) (close : Char) :
    Option (List JValue × List Char) :=
  match fuel with
  | 0 => none
  | f + 1 =>
    match skipws cs with
    | [] => none
    | c :: rest =>
      if c = close then some ([], rest)
      else
        match pyParseVal f (c :: rest) with
        | some (v, r) =>
          match skipws r with
          | [] => none
          | c2 :: r2 =>
            if c2 = ',' then
              match pyParseElems f r2 close with
              | some (vs, r3) => some (v :: vs, r3)
              | none => none
            else if c2 = close then some ([v], r2)
            else none
        | none => none

/-- Parse-and-evaluate the `key: value` fields of a dict display up to the
closing brace. Only string keys are in the model (the fragment
`json.dumps` can emit). -/
def pyParseFields (fuel : Nat) (cs : List Char) :
    Option (List (String × JValue) × List Char) :=
  match fuel with
  | 0 => none
  | f + 1 =>
    match skipws cs with
    | [] => none
    | c :: rest =>
      if c = braceR then some ([], rest)
      else
        match pyParseVal f (c :: rest) with
        | some (.str k, r) =>
          match skipws r with
          | c2 :: r2 =>
            if c2 = ':' then
              match pyParseVal f r2 with
              | some (v, r3) =>
                match skipws r3 with
                | c3 :: r4 =>
                  if c3 = ',' then
                    match pyParseFields f r4 with
                    | some (fs, r5) => some ((k, v) :: fs, r5)
                    | none => none
                  else if c3 = braceR then some ([(k, v)], r4)
                  else none
                | [] => none
              | none => none
            else none
          | [] => none
        | _ => none

end

/-- CPython's evaluation of a complete literal expression (as bound by the
footer's `args = ...` line) in an environment with no bindings: `none`
models an exception (`SyntaxError` or `NameError`). -/
def pyEvalLiteral (s : String) : Option JValue :=
  match pyParseVal (s.data.length + 2) s.data with
  | some (v, r) => if (skipws r).isEmpty then some v else none
  | none => none

/-! ### Python `str.strip()`

`sync_run` post-processes the child's captured streams with
`result.stdout.decode().strip()` and `result.stderr.decode().strip()`
(`src/main.py` lines 158-159). `str.strip()` with no argument removes
every leading and trailing whitespace character. -/

/-- Characters removed by Python's `str.strip()` (the ASCII part of
`str.isspace`): space, tab, newline, carriage return, vertical tab,
form feed, and the other ASCII control separators Python treats as
whitespace. -/
def isPySpace (c : Char) : Bool :=
  c = ' ' ∨ c = Char.ofNat 9 ∨ c = Char.ofNat 10 ∨ c = Char.ofNat 13 ∨
    c = Char.ofNat 11 ∨ c = Char.ofNat 12 ∨
    (28 ≤ c.toNat ∧ c.toNat ≤ 31) ∨ c = Char.ofNat 133

/-- Remove leading whitespace (`str.lstrip()` behaviour). -/
def trimLeft (l : List Char) : List Char := l.dropWhile isPySpace

/-- Remove trailing whitespace (`str.rstrip()` behaviour). -/
def trimRight (l : List Char) : List Char :=
  (l.reverse.dropWhile isPySpace).reverse

/-- `str.strip()` on the character list: both ends trimmed (the order of
the two trims is immaterial to the result). -/
def pyStripL (l : List Char) : List Char := trimLeft (trimRight l)

/-- `str.strip()`. -/
def pyStrip (s : String) : String := ⟨pyStripL s.data⟩

/-! ### The isolated executor `sync_run`

`sync_run` (`src/main.py` lines 138-173) writes the wrapped unit to a
`NamedTemporaryFile(delete=False)`, runs `python3 <artifact>` under
`subprocess.run` with a wall-clock timeout, maps each exception class
of the `try` block to an error dictionary, and removes the artifact in
a `finally` clause.

The outcome of the `tmp.write` call and the outcome of the child process
are external to the function and are passed in as explicit values; each
constructor corresponds to one control path of the source. -/

/-- Result dictionary returned by `sync_run`: either the
stdout/stderr/exit-code dictionary or an `{"error": ...}` dictionary. -/
inductive RunResult where
  | ok (stdout stderr : String) (exit_code : Int) : RunResult
  | error (msg : String) : RunResult
deriving DecidableEq

/-- Outcome of the `tmp.write(wrapped_code)` call on the just-created
artifact. `ioError` models an `OSError` raised by the write (for
example `ENOSPC`), carrying the exception text. -/
inductive WriteOutcome where
  | ok : WriteOutcome
  | ioError (msg : String) : WriteOutcome
deriving DecidableEq

/-- Outcome of the `subprocess.run(["python3", tmp_path], ...)` call and
of the rest of the `try` block: the child completed (captured stdout,
captured stderr, exit status), the wall-clock timeout fired
(`TimeoutExpired`), the spawn failed (`SubprocessError`), or some other
exception was raised inside the `try` block (`except Exception`). -/
inductive ChildOutcome where
  | completed (stdout stderr : String) (returncode : Int) : ChildOutcome
  | timedOut : ChildOutcome
  | subprocessError (msg : String) : ChildOutcome
  | otherError (msg : String) : ChildOutcome
deriving DecidableEq

/-- The `try` block of `sync_run`: on completion the decoded, stripped
streams and the exit status; each `except` clause produces its error
dictionary. -/
def syncRunTry : ChildOutcome → RunResult
  | .completed out err code => .ok (pyStrip out) (pyStrip err) code
  | .timedOut => .error "Execution timed out"
  | .subprocessError e => .error ("Subprocess error: " ++ e)
  | .otherError e => .error ("Unknown error: " ++ e)

/-- `sync_run` together with the lifecycle of its temporary artifact.
The file system is the list of temporary files currently on disk, each
identified by its content. `NamedTemporaryFile(delete=False)` creates
the artifact; if `tmp.write` raises, the exception propagates out of the
`with` block before the `try`/`finally` is entered, so the artifact
stays on disk; otherwise the `finally` clause `os.unlink(tmp_path)`
removes it on every exit of the `try` block. `Except.error` models an
exception escaping `sync_run` to its caller. -/
def sync_run_fs (wrapped : String) (wr : WriteOutcome) (child : ChildOutcome)
    (fs : List String) : Except String RunResult × List String :=
  let fs1 := fs ++ [wrapped]
  match wr with
  | .ioError msg => (Except.error msg, fs1)
  | .ok => (Except.ok (syncRunTry child), fs1.dropLast)

/-- The value `sync_run` returns when the write to the artifact
succeeds. -/
def sync_run (wrapped : String) (child : ChildOutcome) : RunResult :=
  match sync_run_fs wrapped WriteOutcome.ok child [] with
  | (Except.ok r, _) => r
  | (Except.error msg, _) => RunResult.error msg

/-! ### The dependency extractor `extract_imports`

`extract_imports` (`src/main.py` lines 96-111) parses the submission
with `ast.parse` and walks the whole tree with `ast.walk`, collecting
`alias.name.split(".")[0]` for every `ast.Import` alias and
`node.module.split(".")[0]` for every `ast.ImportFrom` whose `module`
is not `None`; `list(set(...))` collapses duplicates. On any exception
(in particular a `SyntaxError` from `ast.parse`) it returns `[]`.

The statement fragment of the Python abstract syntax tree is embedded
below: the two import statement forms, the compound statements through
which imports can be nested, and an opaque leaf for every other
statement. `ast.parse` itself is the CPython parser and enters the model
as a function `String → Option PyModule` (`none` is a `SyntaxError`). -/

/-- A Python statement: the fragment relevant to import extraction.
`importFrom` carries `module` (which is `None` for `from . import x`),
the imported names, and the relative-import `level`. -/
inductive PyStmt where
  | importStmt (names : List String) : PyStmt
  | importFrom (module : Option String) (names : List String) (level : Nat) : PyStmt
  | functionDef (name : String) (body : List PyStmt) : PyStmt
  | classDef (name : String) (body : List PyStmt) : PyStmt
  | ifStmt (body orelse : List PyStmt) : PyStmt
  | whileStmt (body orelse : List PyStmt) : PyStmt
  | tryStmt (body handlers orelse finalBody : List PyStmt) : PyStmt
  | other : PyStmt

/-- The statement list of an `ast.Module`. -/
abbrev PyModule := List PyStmt

/-- `s.split(".")[0]`: the characters before the first dot. -/
def rootOfL : List Char → List Char
  | [] => []
  | c :: rest => if c = '.' then [] else c :: rootOfL rest

/-- Root package/module identifier of a dotted module path. -/
def rootOf (s : String) : String := ⟨rootOfL s.data⟩

mutual

/-- Module roots contributed by one statement and everything nested in
it, in syntactic order (the walk of `extract_imports` restricted to the
nodes that contribute). -/
def stmtImports : PyStmt → List String
  | .importStmt names => names.map rootOf
  | .importFrom mod _ _ =>
      (match mod with
       | some m => [rootOf m]
       | none => [])
  | .functionDef _ body => bodyImports body
  | .classDef _ body => bodyImports body
  | .ifStmt body orelse => bodyImports body ++ bodyImports orelse
  | .whileStmt body orelse => bodyImports body ++ bodyImports orelse
  | .tryStmt body handlers orelse finalBody =>
      bodyImports body ++ bodyImports handlers ++ bodyImports orelse ++
        bodyImports finalBody
  | .other => []

/-- Module roots contributed by a statement list. -/
def bodyImports : List PyStmt → List String
  | [] => []
  | s :: rest => stmtImports s ++ bodyImports rest

end

/-- `extract_imports`: parse, walk, collect roots, collapse duplicates;
`[]` on a parse failure (the `except Exception` clause). -/
def extract_imports (parse : String → Option PyModule) (code : String) :
    List String :=
  match parse code with
  | some m => (bodyImports m).dedup
  | none => []

/-! ### The dependency provisioner `ensure_modules_installed`

`ensure_modules_installed` (`src/main.py` lines 114-135) filters the
module list through `importlib.util.find_spec`, returns immediately when
nothing is missing, and otherwise invokes
`pip install --no-cache-dir <missing...>` once, raising `RuntimeError`
when the installer exits non-zero (`CalledProcessError`) or cannot be
run (`SubprocessError`). `find_spec` and the pip invocation are external
and enter as explicit values. -/

/-- Outcome of the single `subprocess.run(["pip", "install",
"--no-cache-dir"] + missing, check=True, ...)` invocation. -/
inductive PipOutcome where
  | ok : PipOutcome
  | callFailed (stderrText : String) : PipOutcome
  | spawnFailed (msg : String) : PipOutcome
deriving DecidableEq

/-- The `RuntimeError` message `ensure_modules_installed` raises for a
failing pip invocation (`e.stderr.decode().strip()` for a non-zero
exit, `str(e)` for a spawn failure). -/
def pipErrorMsg : PipOutcome → String
  | .ok => ""
  | .callFailed e => "Failed to install modules: " ++ pyStrip e
  | .spawnFailed msg => "Subprocess error: " ++ msg

/-- Trace of one `ensure_modules_installed` call: the argument lists of
the installer invocations it performed, and its outcome (`Except.error`
models the raised `RuntimeError`). -/
structure EnsureTrace where
  pipCalls : List (List String)
  outcome : Except String Unit

/-- `ensure_modules_installed`. -/
def ensure_modules_installed (find_spec : String → Bool) (pip : PipOutcome)
    (modules : List String) : EnsureTrace :=
  let missing := modules.filter (fun n => !(find_spec n))
  if missing.isEmpty then ⟨[], Except.ok ()⟩
  else
    match pip with
    | .ok => ⟨[missing], Except.ok ()⟩
    | .callFailed e => ⟨[missing], Except.error (pipErrorMsg (.callFailed e))⟩
    | .spawnFailed m => ⟨[missing], Except.error (pipErrorMsg (.spawnFailed m))⟩

/-! ### Resource limits

`set_limits` (`src/main.py` lines 68-93) applies `RLIMIT_CPU` when
`CPU_LIMIT > 0` and then `RLIMIT_AS` when `MEMORY_LIMIT > 0` — the
latter only on Linux, with a warning-and-skip branch for Darwin, where
`RLIMIT_AS` is not supported. `sync_run` (lines 152-153) installs
`set_limits` as the child's `preexec_fn` only when
`platform.system() == "Linux"`. -/

/-- One `resource.setrlimit` call. -/
inductive RLimit where
  | cpu (seconds : Nat) : RLimit
  | addressSpace (bytes : Nat) : RLimit
deriving DecidableEq

/-- The `setrlimit` calls `set_limits` performs, given
`platform.system()` and the two configured ceilings. -/
def set_limits (system : String) (cpuLimit memLimit : Nat) : List RLimit :=
  (if 0 < cpuLimit then [RLimit.cpu cpuLimit] else []) ++
    (if 0 < memLimit then
       (if system = "Linux" then [RLimit.addressSpace memLimit] else [])
     else [])

/-- The `setrlimit` calls actually applied to the child process:
`sync_run` adds `preexec_fn = set_limits` to the `subprocess.run`
arguments only when the platform is Linux. -/
def childLimits (system : String) (cpuLimit memLimit : Nat) : List RLimit :=
  if system = "Linux" then set_limits system cpuLimit memLimit else []

/-! ### The code wrapper and the request handler `run_code`

`run_code` (`src/main.py` lines 176-202) extracts imports, provisions
them, builds the wrapped unit with an f-string footer, runs `sync_run`
on a worker thread, turns an `{"error": ...}` result into
`HTTPException(status_code=400, detail=...)`, and wraps its whole body
in `try: ... except Exception as e: raise HTTPException(status_code=500,
detail=str(e))`. `fastapi.HTTPException` is an `Exception` subclass, so
the `except Exception` clause also catches the 400 raised two lines
above it. -/

/-- The wrapped unit: the submission followed by the fixed footer that
binds `args` to the `json.dumps` serialization of the argument list,
calls `run(*args)` and prints the result (`src/main.py` lines 183-188). -/
def wrap (code : String) (args : List JValue) : String :=
  code ++ "\x0a\x0aargs = " ++ jsonDumps (JValue.arr args) ++
    "\x0aresult = run(*args)\x0aprint(result)\x0a"

/-- What the HTTP boundary returns for one `/run` request: the JSON body
of a 200 response, or an error status with its `detail` string. -/
inductive HttpResponse where
  | ok (stdout stderr : String) (exit_code : Int) : HttpResponse
  | error (status : Nat) (detail : String) : HttpResponse
deriving DecidableEq

/-- A 400-class HTTP status. -/
def is4xx (status : Nat) : Prop := 400 ≤ status ∧ status < 500

instance (status : Nat) : Decidable (is4xx status) := by
  unfold is4xx; infer_instance

/-- `str(HTTPException(status, detail))` (starlette renders it as
`"<status>: <detail>"`), which is what the handler's `except` clause
passes to the 500 response. -/
def httpExcStr (status : Nat) (detail : String) : String :=
  toString status ++ ": " ++ detail

/-- Trace of one `run_code` request: the response produced and whether a
child process executing the user code was spawned. -/
structure HandlerTrace where
  response : HttpResponse
  childSpawned : Bool
deriving DecidableEq

/-- The `/run` handler `run_code`. A `RuntimeError` from
`ensure_modules_installed` and an exception escaping `sync_run` are both
caught by `except Exception` and become 500 responses; an
`{"error": ...}` result raises `HTTPException(400, ...)`, which the same
clause catches and re-raises as `HTTPException(500, str(e))`. -/
def run_code (parse : String → Option PyModule) (find_spec : String → Bool)
    (pip : PipOutcome) (wr : WriteOutcome) (child : ChildOutcome)
    (code : String) (args : List JValue) : HandlerTrace :=
  match (ensure_modules_installed find_spec pip (extract_imports parse code)).outcome with
  | Except.error msg => ⟨.error 500 msg, false⟩
  | Except.ok _ =>
    match (sync_run_fs (wrap code args) wr child []).1 with
    | Except.error msg => ⟨.error 500 msg, false⟩
    | Except.ok (RunResult.error msg) =>
        ⟨.error 500 (httpExcStr 400 msg), true⟩
    | Except.ok (RunResult.ok o e c) => ⟨.ok o e c, true⟩

/-! ### Specification-side definitions

Definitions written from the words of the specification, to be compared
with the definitions embedded from the source. -/

/-- Modelled from the spec: stdout equal to the textual representation
of the return value "with the trailing newline trimmed" — removal of
exactly one trailing newline and of nothing else. -/
def spec_trimNewline (s : String) : String :=
  if s.data.getLast? = some (Char.ofNat 10) then ⟨s.data.dropLast⟩ else s

/-- Every character of the list is Python whitespace. -/
def allWS (l : List Char) : Prop := ∀ c ∈ l, isPySpace c = true

/-- The list does not begin with a whitespace character. -/
def noLeadWS (l : List Char) : Prop :=
  ∀ c t, l = c :: t → isPySpace c = false

/-- `res` is `orig` with all leading and trailing whitespace removed and
nothing else: only whitespace was taken off the two ends, and no
whitespace remains at either end. -/
def strippedFrom (orig res : List Char) : Prop :=
  (∃ pre post, orig = pre ++ res ++ post ∧ allWS pre ∧ allWS post) ∧
    noLeadWS res ∧ noLeadWS res.reverse

mutual

/-- All nodes of the statement subtree rooted at a statement, the root
included — the statement-level restriction of `ast.walk`. -/
def stmtWalk : PyStmt → List PyStmt
  | .functionDef n body => .functionDef n body :: bodyWalk body
  | .classDef n body => .classDef n body :: bodyWalk body
  | .ifStmt body orelse => .ifStmt body orelse :: (bodyWalk body ++ bodyWalk orelse)
  | .whileStmt body orelse =>
      .whileStmt body orelse :: (bodyWalk body ++ bodyWalk orelse)
  | .tryStmt body handlers orelse finalBody =>
      .tryStmt body handlers orelse finalBody ::
        (bodyWalk body ++ bodyWalk handlers ++ bodyWalk orelse ++
          bodyWalk finalBody)
  | s => [s]

/-- All nodes of the statement subtrees rooted at a statement list. -/
def bodyWalk : List PyStmt → List PyStmt
  | [] => []
  | s :: rest => stmtWalk s ++ bodyWalk rest

end

/-- Modelled from the spec: the root identifiers one import statement
itself names — for `import a.b, c` the roots of the alias names, for
`from a.b import x` the root of the module path, and nothing for a
statement that is not an import or is a `from . import x` with no
module path. -/
def directRoots : PyStmt → List String
  | .importStmt names => names.map rootOf
  | .importFrom (some m) _ _ => [rootOf m]
  | _ => []

/-- Modelled from the spec: the root identifiers of every import
statement appearing anywhere in the tree, nested scopes included. -/
def specImportRoots (m : PyModule) : List String :=
  (bodyWalk m).flatMap directRoots

/-! ### Helper lemmas -/

/-- The first element surviving `dropWhile` fails the predicate. -/
theorem dropWhile_head_false (p : Char → Bool) :
    ∀ (l : List Char) c t, l.dropWhile p = c :: t → p c = false := by
  intro l
  induction l with
  | nil => intro c t h; simp [List.dropWhile] at h
  | cons a as ih =>
    intro c t h
    rw [List.dropWhile_cons] at h
    by_cases hp : p a
    · rw [if_pos hp] at h; exact ih c t h
    · rw [if_neg hp] at h
      cases h
      simpa using hp

/-- Everything `takeWhile isPySpace` keeps is whitespace. -/
theorem allWS_takeWhile (l : List Char) : allWS (l.takeWhile isPySpace) := by
  intro c hc
  exact List.mem_takeWhile_imp hc

/-- Decomposition of `trimRight`: the input is the trimmed list followed
by its all-whitespace trailing segment. -/
theorem trimRight_decomp (l : List Char) :
    ∃ post, l = trimRight l ++ post ∧ allWS post := by
  refine ⟨(l.reverse.takeWhile isPySpace).reverse, ?_, ?_⟩
  · calc l = l.reverse.reverse := (List.reverse_reverse l).symm
    _ = (l.reverse.takeWhile isPySpace ++ l.reverse.dropWhile isPySpace).reverse := by
        rw [List.takeWhile_append_dropWhile]
    _ = (l.reverse.dropWhile isPySpace).reverse ++
          (l.reverse.takeWhile isPySpace).reverse := by
        rw [List.reverse_append]
    _ = trimRight l ++ (l.reverse.takeWhile isPySpace).reverse := rfl
  · intro c hc
    rw [List.mem_reverse] at hc
    exact List.mem_takeWhile_imp hc

/-- Decomposition of `trimLeft`: the input is its all-whitespace leading
segment followed by the trimmed list. -/
theorem trimLeft_decomp (l : List Char) :
    ∃ pre, l = pre ++ trimLeft l ∧ allWS pre := by
  refine ⟨l.takeWhile isPySpace, ?_, allWS_takeWhile l⟩
  rw [trimLeft, List.takeWhile_append_dropWhile]

/-- The reverse of `trimRight l` starts with a non-whitespace character
(or is empty). -/
theorem noLeadWS_reverse_trimRight (l : List Char) :
    noLeadWS (trimRight l).reverse := by
  intro c t h
  rw [trimRight, List.reverse_reverse] at h
  exact dropWhile_head_false isPySpace l.reverse c t h

/-- `trimLeft` output starts with a non-whitespace character (or is
empty). -/
theorem noLeadWS_trimLeft (l : List Char) : noLeadWS (trimLeft l) := by
  intro c t h
  exact dropWhile_head_false isPySpace l c t h

/-- `pyStripL` computes exactly the spec's two-sided strip: only
whitespace is removed, from the two ends only, and no whitespace is left
at either end. -/
theorem strippedFrom_pyStripL (l : List Char) :
    strippedFrom l (pyStripL l) := by
  obtain ⟨post, hpost, hpostWS⟩ := trimRight_decomp l
  obtain ⟨pre, hpre, hpreWS⟩ := trimLeft_decomp (trimRight l)
  have hps : trimLeft (trimRight l) = pyStripL l := rfl
  have hdecomp : l = pre ++ pyStripL l ++ post := by
    calc l = trimRight l ++ post := hpost
    _ = (pre ++ trimLeft (trimRight l)) ++ post := by rw [← hpre]
    _ = pre ++ trimLeft (trimRight l) ++ post := by rw [List.append_assoc]
    _ = pre ++ pyStripL l ++ post := by rw [hps]
  refine ⟨⟨pre, post, hdecomp, hpreWS, hpostWS⟩, noLeadWS_trimLeft _, ?_⟩
  -- no trailing whitespace: the reverse of the result is a leading
  -- segment of the reverse of `trimRight l`.
  intro c t h
  have hsplit : (trimRight l).reverse = c :: (t ++ pre.reverse) := by
    rw [hpre, List.reverse_append, hps, h]
    rfl
  exact noLeadWS_reverse_trimRight l c (t ++ pre.reverse) hsplit

/-- Appending a trailing newline does not change `trimRight`. -/
theorem trimRight_append_newline (l : List Char) :
    trimRight (l ++ [Char.ofNat 10]) = trimRight l := by
  rw [trimRight, trimRight, List.reverse_append]
  simp only [List.reverse_cons, List.reverse_nil, List.nil_append,
    List.singleton_append, List.dropWhile_cons]
  norm_num [isPySpace]

/-- Appending a trailing newline does not change `str.strip()`. -/
theorem pyStrip_append_newline (t : String) :
    pyStrip (t ++ "\x0a") = pyStrip t := by
  obtain ⟨l⟩ := t
  show (⟨pyStripL (l ++ [Char.ofNat 10])⟩ : String) = ⟨pyStripL l⟩
  rw [pyStripL, pyStripL, trimRight_append_newline]

mutual

/-- Collecting while recursing (`stmtImports`) equals walking all nodes
and collecting each node's own contribution. -/
theorem stmtImports_eq_walk (s : PyStmt) :
    stmtImports s = (stmtWalk s).flatMap directRoots := by
  cases s with
  | importStmt names => simp [stmtImports, stmtWalk, directRoots]
  | importFrom mod names level =>
    cases mod <;> simp [stmtImports, stmtWalk, directRoots]
  | functionDef n body =>
    simp [stmtImports, stmtWalk, directRoots, bodyImports_eq_walk body]
  | classDef n body =>
    simp [stmtImports, stmtWalk, directRoots, bodyImports_eq_walk body]
  | ifStmt body orelse =>
    simp [stmtImports, stmtWalk, directRoots, bodyImports_eq_walk body,
      bodyImports_eq_walk orelse]
  | whileStmt body orelse =>
    simp [stmtImports, stmtWalk, directRoots, bodyImports_eq_walk body,
      bodyImports_eq_walk orelse]
  | tryStmt body handlers orelse finalBody =>
    simp [stmtImports, stmtWalk, directRoots, bodyImports_eq_walk body,
      bodyImports_eq_walk handlers, bodyImports_eq_walk orelse,
      bodyImports_eq_walk finalBody]
  | other => simp [stmtImports, stmtWalk, directRoots]

/-- `bodyImports` equals walking all nodes of the statement list. -/
theorem bodyImports_eq_walk (b : List PyStmt) :
    bodyImports b = (bodyWalk b).flatMap directRoots := by
  cases b with
  | nil => simp [bodyImports, bodyWalk]
  | cons s rest =>
    simp [bodyImports, bodyWalk, stmtImports_eq_walk s,
      bodyImports_eq_walk rest]

end

/-- When some required module is missing and the installer invocation
does not succeed, `ensure_modules_installed` raises the corresponding
`RuntimeError`. -/
theorem ensure_error_of_missing (find_spec : String → Bool)
    (pip : PipOutcome) (modules : List String) (m : String)
    (hmem : m ∈ modules) (hmiss : find_spec m = false)
    (hfail : pip ≠ PipOutcome.ok) :
    (ensure_modules_installed find_spec pip modules).outcome =
      Except.error (pipErrorMsg pip) := by
  have hm : m ∈ modules.filter (fun n => !(find_spec n)) :=
    List.mem_filter.2 ⟨hmem, by simp [hmiss]⟩
  have hne : (modules.filter (fun n => !(find_spec n))).isEmpty = false := by
    cases hmm : modules.filter (fun n => !(find_spec n)) with
    | nil => rw [hmm] at hm; cases hm
    | cons a l => rfl
  unfold ensure_modules_installed
  simp only [hne, Bool.false_eq_true, if_false]
  cases pip with
  | ok => exact absurd rfl hfail
  | callFailed e => rfl
  | spawnFailed s => rfl

/-- A parse oracle for the submission `import no_such_module_xyz`. -/
def parseMissingMod : String → Option PyModule :=
  fun _ => some [PyStmt.importStmt ["no_such_module_xyz"]]

/-- A module tree with an import nested inside a function body and a
`from ... import` at top level. -/
def egModule : PyModule :=
  [PyStmt.functionDef "f" [PyStmt.importStmt ["numpy.linalg", "os.path"]],
   PyStmt.importFrom (some "requests.sessions") ["Session"] 0]

/-! ### The claims -/

/-- C1. The claim says the footer's serialization of `args` is a
faithful, lossless encoding valid in the Python runtime, so that the
footer's variable evaluates to `args` for every JSON-representable
argument sequence — numbers, strings, booleans, null, nested
arrays/objects. It fails for booleans (and null): `json.dumps` renders
Python `True` as `true`, the wrapped unit therefore binds
`args = [true]`, and in Python the name `true` is unbound, so the
footer raises `NameError` instead of producing `[True]`. The number
fragment round-trips, so the failure is specific to the booleans/null
encoding. -/
theorem wrap_bool_footer_not_evaluable :
    wrap "def run(x):\x0a    return x" [JValue.bool true] =
      "def run(x):\x0a    return x\x0a\x0aargs = [true]\x0aresult = run(*args)\x0aprint(result)\x0a"
    ∧ pyEvalLiteral "[true]" = none
    ∧ pyEvalLiteral "[null]" = none
    ∧ pyEvalLiteral (jsonDumps (JValue.arr [JValue.num 2, JValue.num 3])) =
        some (JValue.arr [JValue.num 2, JValue.num 3]) :=
  ⟨rfl, rfl, rfl, rfl⟩

/-- C2 (counterexample). The claim says `stdout` equals the textual
representation of `run(*args)` with the trailing newline trimmed. For a
child whose textual representation is `" 5"` (stdout `" 5\n"`), the code
returns `"5"` — `.strip()` also removes the leading space — which
differs from the trailing-newline-trimmed value `" 5"`. -/
theorem sync_run_strips_more_than_newline :
    sync_run (wrap "def run():\x0a    return \x22 5\x22" [])
        (ChildOutcome.completed " 5\x0a" "" 0) = RunResult.ok "5" "" 0
    ∧ spec_trimNewline " 5\x0a" = " 5"
    ∧ sync_run (wrap "def run():\x0a    return \x22 5\x22" [])
        (ChildOutcome.completed " 5\x0a" "" 0) ≠
        RunResult.ok (spec_trimNewline " 5\x0a") "" 0 :=
  ⟨rfl, rfl, by decide⟩

/-- C2 (amended). For every `code` defining `run` and argument sequence
for which `run(*args)` completes without error and the child writes
nothing to stderr, `execute` returns exit code `0`, empty stderr, and
`stdout` equal to the textual representation of `run(*args)` with all
leading and trailing whitespace stripped (Python `str.strip()`), not
merely the trailing newline trimmed. The child prints the textual
representation `t` followed by one newline. -/
theorem sync_run_success_gives_stripped_repr (w t : String) :
    sync_run w (ChildOutcome.completed (t ++ "\x0a") "" 0) =
      RunResult.ok (pyStrip t) "" 0 := by
  have h : sync_run w (ChildOutcome.completed (t ++ "\x0a") "" 0) =
      RunResult.ok (pyStrip (t ++ "\x0a")) (pyStrip "") 0 := rfl
  rw [h, pyStrip_append_newline]
  rfl

/-- C3 (counterexample). The claim says a dependency-install failure is
surfaced at the HTTP boundary as a 400-class response. For a submission
importing a missing, uninstallable module, the `RuntimeError` raised by
`ensure_modules_installed` is caught by the handler's blanket
`except Exception` clause and surfaced as HTTP 500, not 400-class (the
handler has no 400 path for install failures). -/
theorem install_failure_gives_500_not_4xx :
    run_code parseMissingMod (fun _ => false)
        (PipOutcome.callFailed "ERROR: no matching distribution")
        WriteOutcome.ok ChildOutcome.timedOut "import no_such_module_xyz" [] =
      ⟨HttpResponse.error 500
        "Failed to install modules: ERROR: no matching distribution", false⟩
    ∧ ¬ is4xx 500 :=
  ⟨rfl, by decide⟩

/-- C3 (amended). For every request whose code imports a module absent
from the runtime and whose installation fails (installer exits non-zero
or cannot be spawned), the failure is surfaced at the HTTP boundary as a
500 response carrying the human-readable `RuntimeError` message, and no
child process executing the user code is ever spawned. -/
theorem install_failure_recovered_as_500 (parse : String → Option PyModule)
    (find_spec : String → Bool) (pip : PipOutcome) (wr : WriteOutcome)
    (child : ChildOutcome) (code : String) (args : List JValue) (m : String)
    (hmem : m ∈ extract_imports parse code) (hmiss : find_spec m = false)
    (hfail : pip ≠ PipOutcome.ok) :
    run_code parse find_spec pip wr child code args =
      ⟨HttpResponse.error 500 (pipErrorMsg pip), false⟩ := by
  unfold run_code
  rw [ensure_error_of_missing find_spec pip _ m hmem hmiss hfail]

/-- Witness for C3's amended theorem at a concrete request. -/
theorem install_failure_recovered_as_500_witness :
    "no_such_module_xyz" ∈
        extract_imports parseMissingMod "import no_such_module_xyz"
    ∧ run_code parseMissingMod (fun _ => false) (PipOutcome.callFailed "boom")
        WriteOutcome.ok ChildOutcome.timedOut "import no_such_module_xyz" [] =
      ⟨HttpResponse.error 500 (pipErrorMsg (PipOutcome.callFailed "boom")),
        false⟩ :=
  ⟨by decide,
    install_failure_recovered_as_500 parseMissingMod _ _ _ _ _ _
      "no_such_module_xyz" (by decide) rfl (by intro h; cases h)⟩

/-- C4. The claim says a wall-clock timeout yields `Failure{Timeout}`
surfaced as an HTTP 400 error and never a Success result. The failure
value is indeed produced (`{"error": "Execution timed out"}`, never a
Success), and `run_code` raises `HTTPException(400, ...)` for it — but
its own `except Exception` clause catches that `HTTPException` and
re-raises it as HTTP 500 with detail `str(e)`, so the boundary response
is 500, not 400. -/
theorem timeout_gives_500_not_400 :
    run_code
        (fun _ => some [PyStmt.whileStmt [PyStmt.other] [],
          PyStmt.functionDef "run" [PyStmt.other]])
        (fun _ => true) PipOutcome.ok WriteOutcome.ok ChildOutcome.timedOut
        "while True: pass\x0adef run(): pass" [] =
      ⟨HttpResponse.error 500 (httpExcStr 400 "Execution timed out"), true⟩
    ∧ syncRunTry ChildOutcome.timedOut = RunResult.error "Execution timed out"
    ∧ ¬ is4xx 500 :=
  ⟨rfl, rfl, by decide⟩

/-- C5. For every input string, `extract_imports` returns normally (it
is a total function of the parse result); when the parse fails it
returns the empty list, and the caller's subsequent
`ensure_modules_installed` performs zero installer invocations and
succeeds. -/
theorem extract_imports_parse_failure (parse : String → Option PyModule)
    (code : String) (find_spec : String → Bool) (pip : PipOutcome)
    (h : parse code = none) :
    extract_imports parse code = []
    ∧ ensure_modules_installed find_spec pip (extract_imports parse code) =
        ⟨[], Except.ok ()⟩ := by
  have he : extract_imports parse code = [] := by
    unfold extract_imports
    rw [h]
  exact ⟨he, by rw [he]; rfl⟩

/-- Witness for C5 at a concrete unparseable submission. -/
theorem extract_imports_parse_failure_witness :
    ((fun _ : String => (none : Option PyModule)) "def f(:" = none)
    ∧ (extract_imports (fun _ => none) "def f(:" = []
       ∧ ensure_modules_installed (fun _ => true) PipOutcome.ok
           (extract_imports (fun _ => none) "def f(:") = ⟨[], Except.ok ()⟩) :=
  ⟨rfl, extract_imports_parse_failure (fun _ => none) "def f(:"
    (fun _ => true) PipOutcome.ok rfl⟩

/-- C6. For every parseable `code`, `extract_imports` returns exactly
the set of root module identifiers of every import statement anywhere in
the syntax tree, nested scopes included: membership in its result
coincides with membership in the roots collected over a full walk of the
tree. -/
theorem extract_imports_exactly_walk_roots (parse : String → Option PyModule)
    (code : String) (m : PyModule) (h : parse code = some m) (s : String) :
    s ∈ extract_imports parse code ↔ s ∈ specImportRoots m := by
  unfold extract_imports
  rw [h, List.mem_dedup, bodyImports_eq_walk]
  exact Iff.rfl

/-- Witness for C6 on a tree with an import nested in a function body. -/
theorem extract_imports_exactly_walk_roots_witness :
    ((fun _ : String => some egModule) "code" = some egModule)
    ∧ ("numpy" ∈ extract_imports (fun _ => some egModule) "code" ↔
        "numpy" ∈ specImportRoots egModule) :=
  ⟨rfl, extract_imports_exactly_walk_roots (fun _ => some egModule) "code"
    egModule rfl "numpy"⟩

/-- C7. For every module list all of whose members resolve in the
runtime's search path, `ensure_modules_installed` is a no-op success:
zero installer invocations and no raised error. -/
theorem ensure_noop_when_all_present (find_spec : String → Bool)
    (pip : PipOutcome) (modules : List String)
    (h : ∀ m ∈ modules, find_spec m = true) :
    ensure_modules_installed find_spec pip modules = ⟨[], Except.ok ()⟩ := by
  have hf : modules.filter (fun n => !(find_spec n)) = [] := by
    rw [List.filter_eq_nil_iff]
    intro a ha
    simp [h a ha]
  unfold ensure_modules_installed
  rw [hf]
  rfl

/-- Witness for C7 on a concrete module list with everything present. -/
theorem ensure_noop_when_all_present_witness :
    (∀ m ∈ ["json", "os"], (fun _ : String => true) m = true)
    ∧ ensure_modules_installed (fun _ => true) PipOutcome.ok ["json", "os"] =
        ⟨[], Except.ok ()⟩ :=
  ⟨by decide, ensure_noop_when_all_present (fun _ => true) PipOutcome.ok
    ["json", "os"] (by decide)⟩

/-- C8 (counterexample). The claim says that on a platform that cannot
enforce the address-space ceiling the CPU ceiling is still applied to
the child. On Darwin, `sync_run` does not install `set_limits` as
`preexec_fn` at all (it does so only when `platform.system() ==
"Linux"`), so with `CPU_LIMIT = 2 > 0` no `setrlimit` call reaches the
child — the CPU ceiling included. -/
theorem darwin_child_gets_no_cpu_limit :
    childLimits "Darwin" 2 67108864 = []
    ∧ RLimit.cpu 2 ∉ childLimits "Darwin" 2 67108864
    ∧ 0 < 2 :=
  ⟨rfl, by decide, by decide⟩

/-- C8 (amended). On a host platform that does not support the
address-space ceiling (Darwin), `set_limits` itself skips the memory
limit silently and still sets the CPU ceiling with no partial-limit
error; but `sync_run` installs `set_limits` only on Linux, so on such a
platform neither limit is applied to the child process. -/
theorem darwin_limits (cpu mem : Nat) (h : 0 < cpu) :
    set_limits "Darwin" cpu mem = [RLimit.cpu cpu]
    ∧ childLimits "Darwin" cpu mem = [] := by
  constructor
  · unfold set_limits
    rw [if_pos h]
    have hd : ¬ ("Darwin" = "Linux") := by decide
    simp [hd]
  · unfold childLimits
    rw [if_neg (by decide)]

/-- Witness for C8's amended theorem at the configured defaults. -/
theorem darwin_limits_witness :
    0 < 2
    ∧ (set_limits "Darwin" 2 67108864 = [RLimit.cpu 2]
       ∧ childLimits "Darwin" 2 67108864 = []) :=
  ⟨by decide, darwin_limits 2 67108864 (by decide)⟩

/-- C9 (counterexample). The claim says the temporary artifact is
deleted on every exit path, including any unexpected exception after the
artifact is created. If `tmp.write` raises (for example `ENOSPC`), the
exception leaves the `with` block before the `try`/`finally` containing
`os.unlink` is entered, and the artifact — created with
`delete=False` — stays on disk. -/
theorem artifact_leaks_on_write_failure :
    (sync_run_fs "wrapped unit" (WriteOutcome.ioError "No space left on device")
        ChildOutcome.timedOut []).2 = ["wrapped unit"]
    ∧ (sync_run_fs "wrapped unit" (WriteOutcome.ioError "No space left on device")
        ChildOutcome.timedOut []).2 ≠ ([] : List String) :=
  ⟨rfl, by decide⟩

/-- C9 (amended). Once the wrapped unit has been written successfully,
the artifact is deleted before `sync_run` returns on every exit path of
its `try` block — normal completion, timeout, subprocess error, or any
other exception — leaving the file system exactly as it was. -/
theorem artifact_deleted_on_every_try_exit (wrapped : String)
    (child : ChildOutcome) (fs : List String) :
    (sync_run_fs wrapped WriteOutcome.ok child fs).2 = fs := by
  unfold sync_run_fs
  exact List.dropLast_concat ..

/-- C10. For every execution that completes without timeout or spawn
error, the `stdout` and `stderr` strings of the result are the child's
captured streams with all leading and trailing whitespace removed — a
full two-sided strip: only whitespace is removed, from the two ends
only, and no whitespace remains at either end. -/
theorem sync_run_two_sided_strip (w s e : String) (c : Int) :
    ∃ o e2, sync_run w (ChildOutcome.completed s e c) = RunResult.ok o e2 c
      ∧ strippedFrom s.data o.data ∧ strippedFrom e.data e2.data :=
  ⟨pyStrip s, pyStrip e, rfl, strippedFrom_pyStripL s.data,
    strippedFrom_pyStripL e.data⟩

end PySandbox
